import Mathlib

/-!
Shallow embedding of the SM64-style character movement core of
`claudesmash4k.py` (class `MarioController` together with the module-level
utility functions it uses).  Scalars are real numbers; the engine's raycast
queries (`raycast(...)` against the scene) are abstracted as per-frame
environment data (`Env`): the list of ground-ray hit heights, the list of
wall-ray results in scan order, and the result of the horizontal movement
ray.  Side-effecting particle functions are modelled as emitted events.
-/

namespace Claudesmash

noncomputable section

/-! ## GameConfig constants (`class GameConfig`) -/

def MAX_SPEED : ℝ := 8

def ACCELERATION : ℝ := 15

def AIR_ACCELERATION : ℝ := 6

def FRICTION : ℝ := 0.92

def AIR_FRICTION : ℝ := 0.98

def JUMP_HEIGHT : ℝ := 2.5

def DOUBLE_JUMP_MULTIPLIER : ℝ := 1.2

def TRIPLE_JUMP_MULTIPLIER : ℝ := 1.8

def GRAVITY : ℝ := 20

def TERMINAL_VELOCITY : ℝ := -30

def MIN_TRIPLE_JUMP_SPEED : ℝ := 4

def LONG_JUMP_BOOST : ℝ := 1.5

def GROUND_POUND_VELOCITY : ℝ := -25

def WALL_KICK_BOOST : ℝ := 1.3

/-- `self.scale = (0.8, 1.6, 0.8)` in `MarioController.__init__`. -/
def SCALE_X : ℝ := 0.8

def SCALE_Y : ℝ := 1.6

/-- `self.max_jumps = 3`. -/
def max_jumps : ℤ := 3

/-- `self.jump_buffer_duration = 0.1`. -/
def jump_buffer_duration : ℝ := 0.1

/-- `self.coyote_duration = 0.15`. -/
def coyote_duration : ℝ := 0.15

/-- `self.wall_kick_window = 0.15`. -/
def wall_kick_window : ℝ := 0.15

/-! ## Vectors (ursina `Vec3`) -/

structure Vec3 where
  x : ℝ
  y : ℝ
  z : ℝ

def Vec3.add (v w : Vec3) : Vec3 := ⟨v.x + w.x, v.y + w.y, v.z + w.z⟩

def Vec3.smul (v : Vec3) (c : ℝ) : Vec3 := ⟨v.x * c, v.y * c, v.z * c⟩

def Vec3.length (v : Vec3) : ℝ := Real.sqrt (v.x ^ 2 + v.y ^ 2 + v.z ^ 2)

/-- `Vec3.normalized()`: the unit vector in the same direction; the zero
vector normalizes to the zero vector. -/
def Vec3.normalized (v : Vec3) : Vec3 :=
  if v.length = 0 then ⟨0, 0, 0⟩ else v.smul (1 / v.length)

/-- ursina `lerp(a, b, t) = a + (b - a) * t`, componentwise. -/
def Vec3.lerp (a b : Vec3) (t : ℝ) : Vec3 :=
  a.add ((b.add (a.smul (-1))).smul t)

/-! ## Module utility functions -/

/-- Python `%` on reals with a positive modulus. -/
def pymod (a m : ℝ) : ℝ := a - m * ((⌊a / m⌋ : ℤ) : ℝ)

/-- `lerp_angle` from the source's utility section. -/
def lerp_angle (a b t : ℝ) : ℝ :=
  let diff := pymod (b - a) 360
  let diff2 := if 180 < diff then diff - 360 else diff
  a + diff2 * t

/-- `math.radians`. -/
def radians (x : ℝ) : ℝ := x * (Real.pi / 180)

/-- `math.degrees`. -/
def degrees (x : ℝ) : ℝ := x * (180 / Real.pi)

/-- `math.atan2`. -/
def atan2 (y x : ℝ) : ℝ :=
  if 0 < x then Real.arctan (y / x)
  else if x < 0 then
    if 0 ≤ y then Real.arctan (y / x) + Real.pi else Real.arctan (y / x) - Real.pi
  else if 0 < y then Real.pi / 2
  else if y < 0 then -(Real.pi / 2)
  else 0

/-! ## Input snapshot, events, character state, environment -/

/-- Per-frame key state (`held_keys` and camera yaw) consumed by the
movement routines. -/
structure Input where
  d : Bool
  a : Bool
  w : Bool
  sKey : Bool
  lctrl : Bool
  cKey : Bool
  cameraYaw : ℝ

def bToR (b : Bool) : ℝ := if b then 1 else 0

/-- Discrete side effects: each constructor corresponds to one of the
`create_*` particle functions invoked by the controller. -/
inductive Event where
  | jumpParticles (count : ℤ)
  | tripleJumpEffect
  | longJumpEffect
  | wallKickEffect
  | groundPoundImpact
  | landingParticles
  | speedTrail
deriving DecidableEq

/-- The mutable fields of `MarioController` that the movement core reads or
writes (combat fields are carried as opaque auxiliary state). -/
structure Mario where
  position : Vec3
  rotation_y : ℝ
  velocity : Vec3
  momentum : Vec3
  current_speed : ℝ
  grounded : Bool
  can_move : Bool
  jump_count : ℤ
  jump_buffer_time : ℝ
  coyote_time : ℝ
  is_jumping : Bool
  jump_held : Bool
  jump_start_time : ℝ
  is_crouching : Bool
  is_long_jumping : Bool
  is_ground_pounding : Bool
  can_wall_kick : Bool
  wall_kick_timer : ℝ
  wall_normal : Vec3
  damage_percent : ℝ
  hitstun_frames : ℤ
  trail_timer : ℝ
  last_ground_y : ℝ

/-- Per-frame environment: elapsed time, wall-clock time, key state, and
the answers the scene gives to the controller's raycasts.
`groundHits` lists `world_point.y` for each of the three downward ground
rays that hit; `wallHits` lists, in the fixed 8-direction scan order, the
hit normal (or `none`) for each wall ray; `moveHit` is the hit normal of
the single horizontal movement ray, when it hits. -/
structure Env where
  dt : ℝ
  now : ℝ
  keys : Input
  groundHits : List ℝ
  wallHits : List (Option Vec3)
  moveHit : Option Vec3

/-! ## Jump subsystem (`wall_kick`, `long_jump`, `attempt_jump`, `on_land`) -/

/-- `MarioController.wall_kick`. -/
def wall_kick (s : Mario) : Mario × List Event :=
  let reflect_dir := (Vec3.mk s.wall_normal.x 0 s.wall_normal.z).normalized
  ({ s with momentum := (reflect_dir.smul MAX_SPEED).smul WALL_KICK_BOOST,
            velocity := ⟨s.velocity.x, JUMP_HEIGHT * 1.1, s.velocity.z⟩,
            jump_count := 1,
            grounded := false,
            can_wall_kick := false },
   [Event.wallKickEffect])

/-- `MarioController.long_jump`. -/
def long_jump (s : Mario) : Mario × List Event :=
  let m1 := s.momentum.smul LONG_JUMP_BOOST
  let m2 := m1.normalized.smul (min m1.length (MAX_SPEED * 1.5))
  ({ s with is_long_jumping := true,
            jump_count := 1,
            grounded := false,
            velocity := ⟨s.velocity.x, JUMP_HEIGHT * 0.8, s.velocity.z⟩,
            momentum := m2 },
   [Event.longJumpEffect])

/-- `MarioController.attempt_jump`.  `now` is `time.time()`, stored into
`jump_start_time` on a staged jump. -/
def attempt_jump (now : ℝ) (s : Mario) : Mario × List Event :=
  if s.can_wall_kick = true ∧ 0 < s.wall_kick_timer then
    wall_kick s
  else if ¬(s.grounded = true ∨ 0 < s.coyote_time ∨
            (0 < s.jump_count ∧ s.jump_count < max_jumps)) then
    (s, [])
  else if s.grounded = true ∧ s.is_crouching = true ∧ 3 < s.current_speed then
    long_jump s
  else
    let s1 := { s with jump_count := s.jump_count + 1,
                       grounded := false,
                       coyote_time := 0,
                       is_jumping := true,
                       jump_held := true,
                       jump_start_time := now }
    let r : Mario × ℝ × List Event :=
      if s1.jump_count = 1 then (s1, 1, [])
      else if s1.jump_count = 2 then (s1, DOUBLE_JUMP_MULTIPLIER, [])
      else if s1.jump_count = 3 then
        if MIN_TRIPLE_JUMP_SPEED ≤ s1.current_speed then
          (s1, TRIPLE_JUMP_MULTIPLIER, [Event.tripleJumpEffect])
        else
          ({ s1 with jump_count := 2 }, DOUBLE_JUMP_MULTIPLIER, [])
      else (s1, 1, [])
    let s2 := { r.1 with velocity := ⟨r.1.velocity.x, JUMP_HEIGHT * r.2.1, r.1.velocity.z⟩ }
    (s2, r.2.2 ++ [Event.jumpParticles s2.jump_count])

/-- `MarioController.on_land`: called from `check_ground_collision` on the
state already snapped to the ground (so `velocity.y` has been zeroed). -/
def on_land (now : ℝ) (s : Mario) : Mario × List Event :=
  let s1 := { s with jump_count := 0 }
  let ev1 : List Event := if s1.velocity.y < -5 then [Event.landingParticles] else []
  if 0 < s1.jump_buffer_time then
    let r := attempt_jump now s1
    (r.1, ev1 ++ r.2)
  else (s1, ev1)

/-! ## Collision resolver -/

/-- Maximum of a list of reals; only applied to nonempty lists
(the `if hits:` guard in the source). -/
def list_max : List ℝ → ℝ
  | [] => 0
  | [a] => a
  | a :: b :: rest => max a (list_max (b :: rest))

/-- The landing snap of `check_ground_collision` (lines 187-189): put the
character's feet on the highest hit point, zero the fall speed, ground it. -/
def snap_ground (env : Env) (s : Mario) : Mario :=
  { s with position := ⟨s.position.x, list_max env.groundHits + SCALE_Y / 2, s.position.z⟩,
           velocity := ⟨s.velocity.x, 0, s.velocity.z⟩,
           grounded := true }

/-- `MarioController.check_ground_collision`.  The three downward rays are
answered by `env.groundHits`. -/
def check_ground_collision (env : Env) (s : Mario) : Mario × List Event :=
  if env.groundHits ≠ [] ∧ s.velocity.y ≤ 0 then
    if s.grounded = false then on_land env.now (snap_ground env s)
    else (snap_ground env s, [])
  else if s.grounded = true then
    ({ s with grounded := false, coyote_time := coyote_duration,
              last_ground_y := s.position.y }, [])
  else ({ s with grounded := false }, [])

/-- `MarioController.apply_gravity`. -/
def apply_gravity (dt : ℝ) (s : Mario) : Mario :=
  if s.grounded = false ∧ s.is_ground_pounding = false then
    { s with velocity := ⟨s.velocity.x,
                          max (s.velocity.y - GRAVITY * dt) TERMINAL_VELOCITY,
                          s.velocity.z⟩ }
  else s

/-- First hit of the 8-direction wall scan (the `for direction in
directions` loop returns on the first ray that hits). -/
def first_hit : List (Option Vec3) → Option Vec3
  | [] => none
  | some n :: _ => some n
  | none :: rest => first_hit rest

/-- `MarioController.check_wall_collision`. -/
def check_wall_collision (env : Env) (s : Mario) : Mario :=
  if s.grounded = true ∨ 0 < s.velocity.y then
    { s with can_wall_kick := false }
  else
    match first_hit env.wallHits with
    | some n => { s with can_wall_kick := true,
                         wall_kick_timer := wall_kick_window,
                         wall_normal := n }
    | none => s

/-- `MarioController.apply_movement`.  The horizontal collision ray (cast
along the normalized horizontal velocity with probe distance
`move_distance + SCALE_X / 2`) is answered by `env.moveHit`. -/
def apply_movement (env : Env) (s : Mario) : Mario :=
  let move_distance := Real.sqrt (s.velocity.x ^ 2 + s.velocity.z ^ 2) * env.dt
  let s1 :=
    if 0 < move_distance then
      match env.moveHit with
      | some n =>
          { s with momentum := ((Vec3.mk n.z 0 (-n.x)).smul s.momentum.length).smul 0.5 }
      | none =>
          { s with position := ⟨s.position.x + s.velocity.x * env.dt, s.position.y,
                                s.position.z + s.velocity.z * env.dt⟩ }
    else s
  if s1.grounded = false then
    { s1 with position := ⟨s1.position.x, s1.position.y + s1.velocity.y * env.dt,
                           s1.position.z⟩ }
  else s1

/-! ## Per-mode movement updates -/

/-- `MarioController.update_normal_movement`. -/
def update_normal_movement (keys : Input) (dt : ℝ) (s : Mario) : Mario :=
  let input_dir : Vec3 := ⟨bToR keys.d - bToR keys.a, 0, bToR keys.w - bToR keys.sKey⟩
  let mr : Vec3 × ℝ :=
    if 0 < input_dir.length then
      let idn := input_dir.normalized
      let ang := radians keys.cameraYaw
      let rotated : Vec3 := ⟨idn.x * Real.cos ang - idn.z * Real.sin ang, 0,
                             idn.x * Real.sin ang + idn.z * Real.cos ang⟩
      let accel := if s.grounded = true then ACCELERATION else AIR_ACCELERATION
      let m2 := Vec3.lerp s.momentum (rotated.smul MAX_SPEED) (accel * dt)
      let rot := if 0.1 < m2.length
                 then lerp_angle s.rotation_y (degrees (atan2 m2.x m2.z)) (10 * dt)
                 else s.rotation_y
      (m2, rot)
    else
      let fr := if s.grounded = true then FRICTION else AIR_FRICTION
      let m2 := s.momentum.smul fr
      (if m2.length < 0.1 then (⟨0, 0, 0⟩ : Vec3) else m2, s.rotation_y)
  { s with momentum := mr.1,
           rotation_y := mr.2,
           velocity := ⟨mr.1.x, s.velocity.y, mr.1.z⟩,
           current_speed := Real.sqrt (mr.1.x ^ 2 + mr.1.z ^ 2),
           is_crouching := keys.lctrl || keys.cKey }

/-- `MarioController.update_long_jump`. -/
def update_long_jump (keys : Input) (dt : ℝ) (s : Mario) : Mario :=
  let input_dir : Vec3 :=
    (Vec3.mk (bToR keys.d - bToR keys.a) 0 (bToR keys.w - bToR keys.sKey)).normalized
  let m2 :=
    if 0 < input_dir.length then
      let ang := radians keys.cameraYaw
      let rotated : Vec3 := ⟨input_dir.x * Real.cos ang - input_dir.z * Real.sin ang, 0,
                             input_dir.x * Real.sin ang + input_dir.z * Real.cos ang⟩
      s.momentum.add (rotated.smul (AIR_ACCELERATION * 0.3 * dt))
    else s.momentum
  let s1 := { s with momentum := m2, velocity := ⟨m2.x, s.velocity.y, m2.z⟩ }
  if s1.grounded = true then { s1 with is_long_jumping := false } else s1

/-- `MarioController.on_ground_pound_impact` (the camera shake is external
camera state and is not part of the character model). -/
def on_ground_pound_impact (s : Mario) : Mario × List Event :=
  ({ s with velocity := ⟨s.velocity.x, JUMP_HEIGHT * 0.3, s.velocity.z⟩ },
   [Event.groundPoundImpact])

/-- `MarioController.update_ground_pound`. -/
def update_ground_pound (s : Mario) : Mario × List Event :=
  let m2 := s.momentum.smul 0.95
  let s1 := { s with momentum := m2, velocity := ⟨m2.x, s.velocity.y, m2.z⟩ }
  if s1.grounded = true then
    let r := on_ground_pound_impact s1
    ({ r.1 with is_ground_pounding := false }, r.2)
  else (s1, [])

/-- `MarioController.update_visual_effects`. -/
def update_visual_effects (dt : ℝ) (s : Mario) : Mario × List Event :=
  if MAX_SPEED * 0.7 < s.current_speed then
    let t := s.trail_timer + dt
    if 0.05 < t then ({ s with trail_timer := 0 }, [Event.speedTrail])
    else ({ s with trail_timer := t }, [])
  else (s, [])

/-! ## Frame update and input handlers -/

/-- `MarioController.update`: one frame.  `update_camera_rotation` only
touches external camera state and is omitted from the character model. -/
def update (env : Env) (s : Mario) : Mario × List Event :=
  if s.can_move = false then (s, []) else
  let s1 := { s with jump_buffer_time := max 0 (s.jump_buffer_time - env.dt),
                     coyote_time := max 0 (s.coyote_time - env.dt),
                     wall_kick_timer := max 0 (s.wall_kick_timer - env.dt) }
  let g := check_ground_collision env s1
  let m : Mario × List Event :=
    if g.1.is_ground_pounding = true then update_ground_pound g.1
    else if g.1.is_long_jumping = true then (update_long_jump env.keys env.dt g.1, [])
    else (update_normal_movement env.keys env.dt g.1, [])
  let s4 := apply_gravity env.dt m.1
  let s5 := check_wall_collision env s4
  let s6 := apply_movement env s5
  let v := update_visual_effects env.dt s6
  (v.1, g.2 ++ m.2 ++ v.2)

/-- `MarioController.start_ground_pound`. -/
def start_ground_pound (s : Mario) : Mario :=
  if s.is_ground_pounding = true then s
  else { s with is_ground_pounding := true,
                velocity := ⟨s.velocity.x, GROUND_POUND_VELOCITY, s.velocity.z⟩,
                momentum := s.momentum.smul 0.2 }

/-- The `key == 'space'` branch of `MarioController.input`. -/
def input_space (now : ℝ) (s : Mario) : Mario × List Event :=
  attempt_jump now { s with jump_buffer_time := jump_buffer_duration }

/-- The `key == 'left control'` branch of `MarioController.input`. -/
def input_ground_pound (s : Mario) : Mario :=
  if s.grounded = false then start_ground_pound s else s

/-- The state built by `MarioController.__init__` (with no keyword
overrides, as in `main()`).  `wall_normal` is not assigned by `__init__`;
it is first written by `check_wall_collision`, and is only ever read after
such a write, so its initial value is a modelling default. -/
def init_state : Mario where
  position := ⟨0, 5, 0⟩
  rotation_y := 0
  velocity := ⟨0, 0, 0⟩
  momentum := ⟨0, 0, 0⟩
  current_speed := 0
  grounded := false
  can_move := true
  jump_count := 0
  jump_buffer_time := 0
  coyote_time := 0
  is_jumping := false
  jump_held := false
  jump_start_time := 0
  is_crouching := false
  is_long_jumping := false
  is_ground_pounding := false
  can_wall_kick := false
  wall_kick_timer := 0
  wall_normal := ⟨0, 0, 0⟩
  damage_percent := 0
  hitstun_frames := 0
  trail_timer := 0
  last_ground_y := 0

/-- States reachable from the initial state by frames (with nonnegative
elapsed time) and by the two modelled input handlers. -/
inductive Reachable : Mario → Prop where
  | init : Reachable init_state
  | frame (env : Env) (hdt : 0 ≤ env.dt) (s : Mario) :
      Reachable s → Reachable (update env s).1
  | space (now : ℝ) (s : Mario) :
      Reachable s → Reachable (input_space now s).1
  | pound (s : Mario) :
      Reachable s → Reachable (input_ground_pound s)

/-- Inductive invariant used to bound `jump_count` and `velocity.y`. -/
def Inv (s : Mario) : Prop :=
  0 ≤ s.jump_count ∧ s.jump_count ≤ 3 ∧
  (s.grounded = true → s.jump_count = 0) ∧
  (0 < s.coyote_time → s.jump_count ≤ 1) ∧
  TERMINAL_VELOCITY ≤ s.velocity.y

/-! ## Concrete states and environments used to exercise the model -/

/-- All movement keys released, camera yaw 0. -/
def key0 : Input := ⟨false, false, false, false, false, false, 0⟩

/-- Aerial state with two jumps spent and slow horizontal speed. -/
def s_c1 : Mario := { init_state with jump_count := 2, current_speed := 2 }

/-- Falling state inside an open wall-kick window against a wall with
normal `(-1, 0, 0)`. -/
def s_c2 : Mario :=
  { init_state with can_wall_kick := true, wall_kick_timer := 0.15,
                    wall_normal := ⟨-1, 0, 0⟩ }

/-- A frame whose ground rays hit at height 0 and nothing else hits. -/
def env_flat : Env := ⟨1 / 60, 0, key0, [0], [], none⟩

/-- Falling at 12 units per second with a buffered jump press pending. -/
def s_c3 : Mario :=
  { init_state with velocity := ⟨0, -12, 0⟩, jump_buffer_time := 0.05 }

/-- Falling at 12 units per second, no buffered press. -/
def s_c4 : Mario := { init_state with velocity := ⟨0, -12, 0⟩ }

/-- A frame in which none of the eight wall rays hits. -/
def env_nowall : Env :=
  ⟨1 / 60, 0, key0, [], [none, none, none, none, none, none, none, none], none⟩

/-- A frame in which the first wall ray hits with normal `(-1, 0, 0)`. -/
def env_wall : Env := ⟨1 / 60, 0, key0, [], [some ⟨-1, 0, 0⟩], none⟩

/-- Falling slowly with a stale `can_wall_kick` flag. -/
def s_c8 : Mario := { init_state with velocity := ⟨0, -1, 0⟩, can_wall_kick := true }

/-- Moving at speed 5 along x; the movement ray hits a wall with normal
`(-1, 0, 0)` (the scenario from the spec). -/
def env_c9 : Env := ⟨1, 0, key0, [], [], some ⟨-1, 0, 0⟩⟩

def s_c9 : Mario :=
  { init_state with velocity := ⟨5, 0, 0⟩, momentum := ⟨5, 0, 0⟩, current_speed := 5 }

/-- Grounded state with a buffered jump press still pending. -/
def t_c10 : Mario := { init_state with grounded := true, jump_buffer_time := 0.05 }

/-! ## Invariant preservation -/

lemma wall_kick_inv (s : Mario) : Inv (wall_kick s).1 := by
  refine ⟨?_, ?_, ?_, ?_, ?_⟩ <;>
    norm_num [Inv, wall_kick, TERMINAL_VELOCITY, JUMP_HEIGHT]

lemma long_jump_inv (s : Mario) : Inv (long_jump s).1 := by
  refine ⟨?_, ?_, ?_, ?_, ?_⟩ <;>
    norm_num [Inv, long_jump, TERMINAL_VELOCITY, JUMP_HEIGHT]

lemma attempt_jump_inv (now : ℝ) (s : Mario) (h : Inv s) :
    Inv (attempt_jump now s).1 := by
  obtain ⟨h0, h3, hg, hc, hv⟩ := h
  unfold attempt_jump
  split
  · exact wall_kick_inv s
  split
  · exact ⟨h0, h3, hg, hc, hv⟩
  split
  · exact long_jump_inv s
  rename_i hwk hgate hlj
  rw [not_not] at hgate
  dsimp only
  split
  · rename_i h1
    refine ⟨?_, ?_, ?_, ?_, ?_⟩ <;> dsimp only
    · omega
    · omega
    · simp
    · norm_num
    · norm_num [TERMINAL_VELOCITY, JUMP_HEIGHT]
  split
  · rename_i h1 h2
    refine ⟨?_, ?_, ?_, ?_, ?_⟩ <;> dsimp only
    · omega
    · omega
    · simp
    · norm_num
    · norm_num [TERMINAL_VELOCITY, JUMP_HEIGHT, DOUBLE_JUMP_MULTIPLIER]
  split
  · split
    · rename_i h1 h2 h3' hsp
      refine ⟨?_, ?_, ?_, ?_, ?_⟩ <;> dsimp only
      · omega
      · omega
      · simp
      · norm_num
      · norm_num [TERMINAL_VELOCITY, JUMP_HEIGHT, TRIPLE_JUMP_MULTIPLIER]
    · refine ⟨?_, ?_, ?_, ?_, ?_⟩ <;> dsimp only
      · norm_num
      · norm_num
      · simp
      · norm_num
      · norm_num [TERMINAL_VELOCITY, JUMP_HEIGHT, DOUBLE_JUMP_MULTIPLIER]
  · rename_i h1 h2 h3'
    refine ⟨?_, ?_, ?_, ?_, ?_⟩ <;> dsimp only
    · omega
    · rcases hgate with hA | hB | hC
      · have := hg hA; omega
      · have := hc hB; omega
      · simp only [max_jumps] at hC; omega
    · simp
    · norm_num
    · norm_num [TERMINAL_VELOCITY, JUMP_HEIGHT]

lemma on_land_inv (now : ℝ) (s : Mario) (hv : TERMINAL_VELOCITY ≤ s.velocity.y) :
    Inv (on_land now s).1 := by
  have hin : Inv { s with jump_count := 0 } :=
    ⟨by norm_num, by norm_num, fun _ => rfl, fun _ => by norm_num, hv⟩
  unfold on_land
  dsimp only
  split
  · exact attempt_jump_inv now _ hin
  · exact hin

lemma check_ground_inv (env : Env) (s : Mario) (h : Inv s) :
    Inv (check_ground_collision env s).1 := by
  obtain ⟨h0, h3, hg, hc, hv⟩ := h
  unfold check_ground_collision
  split
  · split
    · refine on_land_inv env.now _ ?_
      norm_num [snap_ground, TERMINAL_VELOCITY]
    · rename_i hland hgr
      have hgt : s.grounded = true := by
        cases hb : s.grounded
        · exact absurd hb hgr
        · rfl
      refine ⟨h0, h3, fun _ => hg hgt, fun hcp => ?_, ?_⟩ <;>
        dsimp only [snap_ground]
      · exact le_trans (hg hgt).le (by omega)
      · norm_num [TERMINAL_VELOCITY]
  · split
    · rename_i hnl hgt
      refine ⟨?_, ?_, ?_, ?_, ?_⟩ <;> dsimp only
      · exact h0
      · exact h3
      · simp
      · intro _; exact le_trans (hg hgt).le (by omega)
      · exact hv
    · refine ⟨?_, ?_, ?_, ?_, ?_⟩ <;> dsimp only
      · exact h0
      · exact h3
      · simp
      · exact hc
      · exact hv

lemma apply_gravity_inv (dt : ℝ) (s : Mario) (h : Inv s) :
    Inv (apply_gravity dt s) := by
  obtain ⟨h0, h3, hg, hc, hv⟩ := h
  unfold apply_gravity
  split
  · exact ⟨h0, h3, hg, hc, le_max_right _ _⟩
  · exact ⟨h0, h3, hg, hc, hv⟩

lemma check_wall_inv (env : Env) (s : Mario) (h : Inv s) :
    Inv (check_wall_collision env s) := by
  obtain ⟨h0, h3, hg, hc, hv⟩ := h
  unfold check_wall_collision
  split
  · exact ⟨h0, h3, hg, hc, hv⟩
  · cases hfh : first_hit env.wallHits
    · simpa [hfh] using ⟨h0, h3, hg, hc, hv⟩
    · simpa [hfh] using ⟨h0, h3, hg, hc, hv⟩

lemma apply_movement_inv (env : Env) (s : Mario) (h : Inv s) :
    Inv (apply_movement env s) := by
  obtain ⟨h0, h3, hg, hc, hv⟩ := h
  unfold apply_movement
  cases hmh : env.moveHit <;> dsimp only <;>
    split <;> split <;> exact ⟨h0, h3, hg, hc, hv⟩

lemma update_normal_movement_inv (keys : Input) (dt : ℝ) (s : Mario) (h : Inv s) :
    Inv (update_normal_movement keys dt s) := by
  obtain ⟨h0, h3, hg, hc, hv⟩ := h
  exact ⟨h0, h3, hg, hc, hv⟩

lemma update_long_jump_inv (keys : Input) (dt : ℝ) (s : Mario) (h : Inv s) :
    Inv (update_long_jump keys dt s) := by
  obtain ⟨h0, h3, hg, hc, hv⟩ := h
  unfold update_long_jump
  dsimp only
  split
  · exact ⟨h0, h3, hg, hc, hv⟩
  · exact ⟨h0, h3, hg, hc, hv⟩

lemma update_ground_pound_inv (s : Mario) (h : Inv s) :
    Inv (update_ground_pound s).1 := by
  obtain ⟨h0, h3, hg, hc, hv⟩ := h
  unfold update_ground_pound on_ground_pound_impact
  dsimp only
  split
  · refine ⟨h0, h3, hg, hc, ?_⟩
    norm_num [TERMINAL_VELOCITY, JUMP_HEIGHT]
  · exact ⟨h0, h3, hg, hc, hv⟩

lemma update_visual_effects_inv (dt : ℝ) (s : Mario) (h : Inv s) :
    Inv (update_visual_effects dt s).1 := by
  obtain ⟨h0, h3, hg, hc, hv⟩ := h
  unfold update_visual_effects
  dsimp only
  split
  · split
    · exact ⟨h0, h3, hg, hc, hv⟩
    · exact ⟨h0, h3, hg, hc, hv⟩
  · exact ⟨h0, h3, hg, hc, hv⟩

lemma update_inv (env : Env) (hdt : 0 ≤ env.dt) (s : Mario) (h : Inv s) :
    Inv (update env s).1 := by
  obtain ⟨h0, h3, hg, hc, hv⟩ := h
  unfold update
  split
  · exact ⟨h0, h3, hg, hc, hv⟩
  dsimp only
  have h1 : Inv { s with jump_buffer_time := max 0 (s.jump_buffer_time - env.dt),
                         coyote_time := max 0 (s.coyote_time - env.dt),
                         wall_kick_timer := max 0 (s.wall_kick_timer - env.dt) } := by
    refine ⟨h0, h3, hg, fun hcp => ?_, hv⟩
    dsimp only at hcp ⊢
    refine hc ?_
    rcases lt_max_iff.mp hcp with hbad | hgood
    · exact absurd hbad (lt_irrefl 0)
    · linarith
  have h2 := check_ground_inv env _ h1
  apply update_visual_effects_inv
  apply apply_movement_inv
  apply check_wall_inv
  apply apply_gravity_inv
  split
  · exact update_ground_pound_inv _ h2
  split
  · exact update_long_jump_inv _ _ _ h2
  · exact update_normal_movement_inv _ _ _ h2

lemma input_space_inv (now : ℝ) (s : Mario) (h : Inv s) :
    Inv (input_space now s).1 := by
  obtain ⟨h0, h3, hg, hc, hv⟩ := h
  exact attempt_jump_inv now _ ⟨h0, h3, hg, hc, hv⟩

lemma input_ground_pound_inv (s : Mario) (h : Inv s) :
    Inv (input_ground_pound s) := by
  obtain ⟨h0, h3, hg, hc, hv⟩ := h
  unfold input_ground_pound start_ground_pound
  split
  · split
    · exact ⟨h0, h3, hg, hc, hv⟩
    · refine ⟨h0, h3, hg, hc, ?_⟩
      norm_num [TERMINAL_VELOCITY, GROUND_POUND_VELOCITY]
  · exact ⟨h0, h3, hg, hc, hv⟩

lemma inv_init : Inv init_state := by
  refine ⟨?_, ?_, ?_, ?_, ?_⟩ <;>
    norm_num [init_state, TERMINAL_VELOCITY]

lemma inv_of_reachable (s : Mario) (h : Reachable s) : Inv s := by
  induction h with
  | init => exact inv_init
  | frame env hdt s hr ih => exact update_inv env hdt s ih
  | space now s hr ih => exact input_space_inv now s ih
  | pound s hr ih => exact input_ground_pound_inv s ih

/-! ## Further helper lemmas -/

lemma sqrt_twentyfive : Real.sqrt 25 = 5 := by
  rw [show (25 : ℝ) = 5 ^ 2 by norm_num]
  exact Real.sqrt_sq (by norm_num)

lemma attempt_jump_jump_buffer_time (now : ℝ) (t : Mario) :
    (attempt_jump now t).1.jump_buffer_time = t.jump_buffer_time := by
  unfold attempt_jump wall_kick long_jump
  dsimp only
  split
  · rfl
  split
  · rfl
  split
  · rfl
  split
  · rfl
  split
  · rfl
  split
  · split <;> rfl
  · rfl

lemma attempt_jump_performs (now : ℝ) (t : Mario) (hg : t.grounded = true) :
    0 < (attempt_jump now t).1.velocity.y ∧ 0 < (attempt_jump now t).2.length := by
  unfold attempt_jump
  split
  · constructor
    · norm_num [wall_kick, JUMP_HEIGHT]
    · norm_num [wall_kick]
  split
  · rename_i hwk hcond
    exact absurd (Or.inl hg) hcond
  split
  · constructor
    · norm_num [long_jump, JUMP_HEIGHT]
    · norm_num [long_jump]
  · dsimp only
    split
    · exact ⟨by norm_num [JUMP_HEIGHT], by simp⟩
    split
    · exact ⟨by norm_num [JUMP_HEIGHT, DOUBLE_JUMP_MULTIPLIER], by simp⟩
    split
    · split
      · exact ⟨by norm_num [JUMP_HEIGHT, TRIPLE_JUMP_MULTIPLIER], by simp⟩
      · exact ⟨by norm_num [JUMP_HEIGHT, DOUBLE_JUMP_MULTIPLIER], by simp⟩
    · exact ⟨by norm_num [JUMP_HEIGHT], by simp⟩

/-! ## Claim theorems -/

/-- C5: for every reachable state (hence after every frame and after every
input-handler call), `jump_count` stays within `[0, 3]`. -/
theorem c5_jump_count_in_range (s : Mario) (h : Reachable s) :
    0 ≤ s.jump_count ∧ s.jump_count ≤ 3 :=
  ⟨(inv_of_reachable s h).1, (inv_of_reachable s h).2.1⟩

theorem c5_jump_count_in_range_witness :
    0 ≤ init_state.jump_count ∧ init_state.jump_count ≤ 3 :=
  c5_jump_count_in_range init_state Reachable.init

/-- C6: gravity is applied exactly when neither grounded nor
ground-pounding, the applied value is the `GRAVITY * dt` decrement clamped
at `TERMINAL_VELOCITY`, hence at least `TERMINAL_VELOCITY`; moreover on
every reachable state (so after every frame) `velocity.y` is at least
`TERMINAL_VELOCITY`. -/
theorem c6_gravity_terminal_clamp (s : Mario) (dt : ℝ) :
    (s.grounded = false → s.is_ground_pounding = false →
       (apply_gravity dt s).velocity.y
           = max (s.velocity.y - GRAVITY * dt) TERMINAL_VELOCITY
       ∧ TERMINAL_VELOCITY ≤ (apply_gravity dt s).velocity.y)
    ∧ ((s.grounded = true ∨ s.is_ground_pounding = true) → apply_gravity dt s = s)
    ∧ (∀ t : Mario, Reachable t → TERMINAL_VELOCITY ≤ t.velocity.y) := by
  refine ⟨fun hg hp => ?_, fun hgp => ?_,
          fun t ht => (inv_of_reachable t ht).2.2.2.2⟩
  · unfold apply_gravity
    rw [if_pos ⟨hg, hp⟩]
    exact ⟨rfl, le_max_right _ _⟩
  · rcases hgp with h | h <;> simp [apply_gravity, h]

theorem c6_gravity_terminal_clamp_witness :
    (apply_gravity 1 init_state).velocity.y
        = max (init_state.velocity.y - GRAVITY * 1) TERMINAL_VELOCITY
    ∧ TERMINAL_VELOCITY ≤ (apply_gravity 1 init_state).velocity.y
    ∧ TERMINAL_VELOCITY ≤ init_state.velocity.y := by
  have h := c6_gravity_terminal_clamp init_state 1
  have h1 := h.1 rfl rfl
  exact ⟨h1.1, h1.2, h.2.2 init_state Reachable.init⟩

/-- C1: a staged jump that raises `jump_count` to 3 is downgraded to a
double jump (`jump_count` ends at 2, impulse `JUMP_HEIGHT *
DOUBLE_JUMP_MULTIPLIER`, never `JUMP_HEIGHT * TRIPLE_JUMP_MULTIPLIER`)
when `current_speed < MIN_TRIPLE_JUMP_SPEED`, and is a triple jump
(`jump_count` 3, impulse `JUMP_HEIGHT * TRIPLE_JUMP_MULTIPLIER`) when
`current_speed ≥ MIN_TRIPLE_JUMP_SPEED`. -/
theorem c1_triple_jump_downgrade (now : ℝ) (s : Mario)
    (hwk : ¬(s.can_wall_kick = true ∧ 0 < s.wall_kick_timer))
    (hlj : ¬(s.grounded = true ∧ s.is_crouching = true ∧ 3 < s.current_speed))
    (hjc : s.jump_count = 2) :
    (s.current_speed < MIN_TRIPLE_JUMP_SPEED →
       (attempt_jump now s).1.jump_count = 2
       ∧ (attempt_jump now s).1.velocity.y = JUMP_HEIGHT * DOUBLE_JUMP_MULTIPLIER
       ∧ (attempt_jump now s).1.velocity.y ≠ JUMP_HEIGHT * TRIPLE_JUMP_MULTIPLIER)
    ∧ (MIN_TRIPLE_JUMP_SPEED ≤ s.current_speed →
       (attempt_jump now s).1.jump_count = 3
       ∧ (attempt_jump now s).1.velocity.y = JUMP_HEIGHT * TRIPLE_JUMP_MULTIPLIER) := by
  have hgate : s.grounded = true ∨ 0 < s.coyote_time ∨
      (0 < s.jump_count ∧ s.jump_count < max_jumps) :=
    Or.inr (Or.inr ⟨by omega, by simp only [max_jumps]; omega⟩)
  unfold attempt_jump
  rw [if_neg hwk, if_neg (not_not_intro hgate), if_neg hlj]
  dsimp only
  constructor
  · intro hsp
    rw [if_neg (by omega : ¬s.jump_count + 1 = 1),
        if_neg (by omega : ¬s.jump_count + 1 = 2),
        if_pos (by omega : s.jump_count + 1 = 3),
        if_neg (not_le.mpr hsp)]
    refine ⟨rfl, rfl, ?_⟩
    norm_num [JUMP_HEIGHT, DOUBLE_JUMP_MULTIPLIER, TRIPLE_JUMP_MULTIPLIER]
  · intro hsp
    rw [if_neg (by omega : ¬s.jump_count + 1 = 1),
        if_neg (by omega : ¬s.jump_count + 1 = 2),
        if_pos (by omega : s.jump_count + 1 = 3),
        if_pos hsp]
    refine ⟨?_, rfl⟩
    dsimp only
    omega

theorem c1_triple_jump_downgrade_witness :
    (attempt_jump 0 s_c1).1.jump_count = 2
    ∧ (attempt_jump 0 s_c1).1.velocity.y = JUMP_HEIGHT * DOUBLE_JUMP_MULTIPLIER := by
  have h := (c1_triple_jump_downgrade 0 s_c1
      (by simp [s_c1, init_state])
      (by simp [s_c1, init_state])
      rfl).1 (by norm_num [s_c1, init_state, MIN_TRIPLE_JUMP_SPEED])
  exact ⟨h.1, h.2.1⟩

/-- C2: whenever `can_wall_kick` is set and the wall-kick timer is
running, a jump request performs exactly the wall kick — regardless of
`jump_count` or `grounded` — which sets momentum to the XZ-flattened,
normalized wall normal scaled by `MAX_SPEED * WALL_KICK_BOOST`, sets
`velocity.y` to `JUMP_HEIGHT * 1.1`, resets `jump_count` to 1, forces
`can_wall_kick` to false, and performs no staged or long jump. -/
theorem c2_wall_kick_priority (now : ℝ) (s : Mario)
    (h1 : s.can_wall_kick = true) (h2 : 0 < s.wall_kick_timer) :
    attempt_jump now s = wall_kick s
    ∧ (wall_kick s).1.momentum
        = ((Vec3.mk s.wall_normal.x 0 s.wall_normal.z).normalized).smul
            (MAX_SPEED * WALL_KICK_BOOST)
    ∧ (wall_kick s).1.velocity.y = JUMP_HEIGHT * 1.1
    ∧ (wall_kick s).1.jump_count = 1
    ∧ (wall_kick s).1.can_wall_kick = false
    ∧ (wall_kick s).1.grounded = false
    ∧ (wall_kick s).1.is_long_jumping = s.is_long_jumping
    ∧ (wall_kick s).2 = [Event.wallKickEffect] := by
  refine ⟨?_, ?_, rfl, rfl, rfl, rfl, rfl, rfl⟩
  · unfold attempt_jump
    rw [if_pos ⟨h1, h2⟩]
  · show ((Vec3.mk s.wall_normal.x 0 s.wall_normal.z).normalized.smul MAX_SPEED).smul
        WALL_KICK_BOOST
      = ((Vec3.mk s.wall_normal.x 0 s.wall_normal.z).normalized).smul
          (MAX_SPEED * WALL_KICK_BOOST)
    simp [Vec3.smul, mul_assoc]

theorem c2_wall_kick_priority_witness :
    attempt_jump 0 s_c2 = wall_kick s_c2
    ∧ (wall_kick s_c2).1.momentum = ⟨-(MAX_SPEED * WALL_KICK_BOOST), 0, 0⟩
    ∧ (wall_kick s_c2).1.jump_count = 1
    ∧ (wall_kick s_c2).1.can_wall_kick = false := by
  have h := c2_wall_kick_priority 0 s_c2 rfl (by norm_num [s_c2, init_state])
  refine ⟨h.1, ?_, h.2.2.2.1, h.2.2.2.2.1⟩
  rw [h.2.1]
  norm_num [s_c2, init_state, Vec3.normalized, Vec3.length, Vec3.smul,
            Real.sqrt_one, MAX_SPEED, WALL_KICK_BOOST]

/-- C3: on a landing frame (airborne state, a ground-ray hit, descending),
`jump_count` is reset to 0 before the buffered-jump re-evaluation: with
`jump_buffer_time > 0` the frame's ground check re-runs the jump decision
on the snapped state whose `jump_count` is 0. -/
theorem c3_landing_resets_before_buffer (env : Env) (s : Mario)
    (hg : s.grounded = false) (hhit : env.groundHits ≠ [])
    (hvy : s.velocity.y ≤ 0) (hbuf : 0 < s.jump_buffer_time) :
    check_ground_collision env s
      = attempt_jump env.now { snap_ground env s with jump_count := 0 }
    ∧ ({ snap_ground env s with jump_count := 0 }).jump_count = 0 := by
  refine ⟨?_, rfl⟩
  unfold check_ground_collision
  rw [if_pos ⟨hhit, hvy⟩, if_pos hg]
  unfold on_land
  dsimp only
  rw [if_pos (show 0 < (snap_ground env s).jump_buffer_time by
        dsimp only [snap_ground]; exact hbuf),
      if_neg (show ¬(snap_ground env s).velocity.y < -5 by
        dsimp only [snap_ground]; norm_num)]
  simp

theorem c3_landing_resets_before_buffer_witness :
    check_ground_collision env_flat s_c3
      = attempt_jump env_flat.now { snap_ground env_flat s_c3 with jump_count := 0 }
    ∧ ({ snap_ground env_flat s_c3 with jump_count := 0 }).jump_count = 0 :=
  c3_landing_resets_before_buffer env_flat s_c3 rfl
    (by simp [env_flat]) (by norm_num [s_c3, init_state])
    (by norm_num [s_c3, init_state])

/-- C4: the heavy-landing particles are never emitted: on a landing from a
fall at 12 units per second (well past the 5-unit threshold) the ground
snap zeroes `velocity.y` before `on_land` tests `velocity.y < -5`, so the
landing produces no events at all, contradicting the claimed behaviour. -/
theorem c4_landing_particles_dead :
    s_c4.velocity.y < -5
    ∧ s_c4.grounded = false
    ∧ (check_ground_collision env_flat s_c4).1.grounded = true
    ∧ (check_ground_collision env_flat s_c4).1.velocity.y = 0
    ∧ (check_ground_collision env_flat s_c4).2 = [] := by
  refine ⟨by norm_num [s_c4, init_state], rfl, ?_, ?_, ?_⟩ <;>
    norm_num [check_ground_collision, on_land, snap_ground, env_flat, s_c4,
              init_state]

/-- C7 counterexample: a jump request from a state with `can_wall_kick`
set and `wall_kick_timer = 0.15` performs the wall kick, which clears
`can_wall_kick` but leaves the timer positive — so after this jump-request
handling `wall_kick_timer > 0` holds while `can_wall_kick` is false,
refuting the claimed invariant. -/
theorem c7_counterexample :
    0 < (attempt_jump 0 s_c2).1.wall_kick_timer
    ∧ (attempt_jump 0 s_c2).1.can_wall_kick = false := by
  have heq : attempt_jump 0 s_c2 = wall_kick s_c2 := by
    unfold attempt_jump
    rw [if_pos ⟨rfl, by norm_num [s_c2, init_state]⟩]
  rw [heq]
  exact ⟨by norm_num [wall_kick, s_c2, init_state], rfl⟩

/-- C7 (amended): a wall-detection step that runs its ray scan while
airborne and descending and finds a hit sets `can_wall_kick = true` and
restarts `wall_kick_timer` at the full (positive) window — so the
implication `wall_kick_timer > 0 → can_wall_kick` holds right after a
detecting wall scan; it is wall-kick consumption that breaks it, setting
`can_wall_kick` to false while leaving the timer untouched. -/
theorem c7_amended (env : Env) (s : Mario)
    (hg : s.grounded = false) (hvy : ¬0 < s.velocity.y)
    (hhit : (first_hit env.wallHits).isSome = true) :
    (check_wall_collision env s).can_wall_kick = true
    ∧ (check_wall_collision env s).wall_kick_timer = wall_kick_window
    ∧ 0 < wall_kick_window
    ∧ (∀ t : Mario, (wall_kick t).1.can_wall_kick = false
        ∧ (wall_kick t).1.wall_kick_timer = t.wall_kick_timer) := by
  have hcond : ¬(s.grounded = true ∨ 0 < s.velocity.y) := by
    rintro (h | h)
    · rw [hg] at h; exact Bool.noConfusion h
    · exact hvy h
  obtain ⟨n, hn⟩ := Option.isSome_iff_exists.mp hhit
  unfold check_wall_collision
  rw [if_neg hcond, hn]
  exact ⟨rfl, rfl, by norm_num [wall_kick_window], fun t => ⟨rfl, rfl⟩⟩

theorem c7_amended_witness :
    (check_wall_collision env_wall init_state).can_wall_kick = true
    ∧ (check_wall_collision env_wall init_state).wall_kick_timer = wall_kick_window := by
  have h := c7_amended env_wall init_state rfl
    (by norm_num [init_state]) (by simp [env_wall, first_hit])
  exact ⟨h.1, h.2.1⟩

/-- C8 counterexample: while airborne and descending with no wall-ray hit,
`check_wall_collision` leaves `can_wall_kick` unchanged — here a stale
`true` survives the scan, refuting the claim that it is cleared. -/
theorem c8_counterexample :
    s_c8.grounded = false
    ∧ s_c8.velocity.y ≤ 0
    ∧ first_hit env_nowall.wallHits = none
    ∧ (check_wall_collision env_nowall s_c8).can_wall_kick = true := by
  refine ⟨rfl, by norm_num [s_c8, init_state], rfl, ?_⟩
  norm_num [check_wall_collision, env_nowall, s_c8, init_state, first_hit]

/-- C8 (amended): `can_wall_kick` is cleared whenever the character is
grounded or ascending; on a frame that is airborne and not ascending with
none of the eight rays hitting, the wall scan leaves the state — in
particular `can_wall_kick` — unchanged rather than clearing it. -/
theorem c8_amended (env : Env) (s : Mario) :
    ((s.grounded = true ∨ 0 < s.velocity.y) →
        check_wall_collision env s = { s with can_wall_kick := false })
    ∧ (s.grounded = false → s.velocity.y ≤ 0 → first_hit env.wallHits = none →
        check_wall_collision env s = s) := by
  constructor
  · intro h
    unfold check_wall_collision
    rw [if_pos h]
  · intro hg hvy hfh
    have hcond : ¬(s.grounded = true ∨ 0 < s.velocity.y) := by
      rintro (h | h)
      · rw [hg] at h; exact Bool.noConfusion h
      · exact absurd h (not_lt.mpr hvy)
    unfold check_wall_collision
    rw [if_neg hcond, hfh]

theorem c8_amended_witness :
    check_wall_collision env_nowall s_c8 = s_c8 :=
  (c8_amended env_nowall s_c8).2 rfl (by norm_num [s_c8, init_state]) rfl

/-- C9: when the desired horizontal displacement is nonzero and the
movement ray hits a wall with normal `n`, momentum is replaced by the
slide vector `(n.z, 0, -n.x)` scaled by half the previous momentum
magnitude. -/
theorem c9_wall_slide (env : Env) (s : Mario) (n : Vec3)
    (hmove : 0 < Real.sqrt (s.velocity.x ^ 2 + s.velocity.z ^ 2) * env.dt)
    (hhit : env.moveHit = some n) :
    (apply_movement env s).momentum
      = (Vec3.mk n.z 0 (-n.x)).smul (s.momentum.length * 0.5) := by
  unfold apply_movement
  rw [hhit]
  dsimp only
  rw [if_pos hmove]
  split <;> simp [Vec3.smul, mul_assoc]

/-- Witness: the spec scenario — momentum `(5,0,0)`, wall normal
`(-1,0,0)` — yields post-slide momentum `(0, 0, 2.5)`. -/
theorem c9_wall_slide_witness :
    (apply_movement env_c9 s_c9).momentum = ⟨0, 0, 2.5⟩ := by
  have h := c9_wall_slide env_c9 s_c9 ⟨-1, 0, 0⟩
    (by norm_num [env_c9, s_c9, init_state])
    rfl
  rw [h]
  norm_num [Vec3.smul, Vec3.length, s_c9, init_state, sqrt_twentyfive]

/-- C10: a jump key press sets the buffer to the full (positive)
`jump_buffer_duration`, and a performed jump never clears the buffer; a
landing while the buffer is pending therefore re-runs the jump decision,
and from a grounded state that re-run applies a fresh upward jump impulse
and emits a jump event. -/
theorem c10_buffer_survives_jump (now : ℝ) (s : Mario) :
    (input_space now s).1.jump_buffer_time = jump_buffer_duration
    ∧ 0 < jump_buffer_duration
    ∧ (∀ t : Mario, (attempt_jump now t).1.jump_buffer_time = t.jump_buffer_time)
    ∧ (∀ t : Mario, t.grounded = true → 0 < t.jump_buffer_time →
        t.velocity.y = 0 →
        0 < (on_land now t).1.velocity.y ∧ 0 < (on_land now t).2.length) := by
  refine ⟨?_, by norm_num [jump_buffer_duration], attempt_jump_jump_buffer_time now,
          fun t hg hb hv => ?_⟩
  · unfold input_space
    rw [attempt_jump_jump_buffer_time]
  · unfold on_land
    dsimp only
    rw [if_pos (show (0:ℝ) < t.jump_buffer_time from hb),
        if_neg (show ¬t.velocity.y < -5 by rw [hv]; norm_num)]
    have hp := attempt_jump_performs now { t with jump_count := 0 } hg
    exact ⟨hp.1, by simpa using hp.2⟩

theorem c10_buffer_survives_jump_witness :
    (input_space 0 init_state).1.jump_buffer_time = jump_buffer_duration
    ∧ 0 < (on_land 0 t_c10).1.velocity.y := by
  have h := c10_buffer_survives_jump 0 init_state
  exact ⟨h.1, (h.2.2.2 t_c10 rfl (by norm_num [t_c10, init_state]) rfl).1⟩

end

end Claudesmash
